import Mathlib

/-!
Shallow embedding of `src/watchdog/_fsevents.c` (the low-level FSEvents
bridge of the watchdog project).

Python objects are modelled by numeric identities (`Nat`): thread handles,
stream handles and callbacks are opaque dictionary keys / values.  The two
module-level dictionaries `g__pydict_loops` and `g__pydict_streams` are
association lists with unique keys.  CPython's per-thread pending-exception
slot is modelled as a map from thread-state identity to `PyErr`; the GIL is
a boolean; the currently swapped-in `PyThreadState` is an `Option Nat`
(`none` models the NULL thread state installed by `Py_BEGIN_ALLOW_THREADS`).
Native CoreFoundation / FSEvents calls are recorded in event logs
(`created`, `scheduledOn`, `started`, `invalidated`, `released`,
`stoppedLoops`); fallible native calls are driven by boolean oracles.
-/

/-- CPython dictionary lookup (`PyDict_GetItem`): first binding of the key. -/
def dictGet {α : Type} (k : Nat) : List (Nat × α) → Option α
  | [] => none
  | p :: rest => if k = p.1 then some p.2 else dictGet k rest

/-- CPython dictionary deletion (`PyDict_DelItem`): drop every binding of
the key (keys are unique in a real dict, so this is the one binding). -/
def dictDel {α : Type} (k : Nat) : List (Nat × α) → List (Nat × α)
  | [] => []
  | p :: rest => if p.1 = k then dictDel k rest else p :: dictDel k rest

/-- CPython dictionary insertion (`PyDict_SetItem`): insert or replace. -/
def dictSet {α : Type} (k : Nat) (v : α) (d : List (Nat × α)) : List (Nat × α) :=
  (k, v) :: dictDel k d

/-- Pending Python exceptions that the C module can leave behind. -/
inductive PyErr where
  | typeError (msg : String)
  | keyError
  | valueError (msg : String)
  | callbackExc
deriving DecidableEq, Repr

/-- `FSEventStreamInfo`: the per-stream metadata struct allocated by
`pyfsevents_schedule` and read by `event_stream_handler`. -/
structure FSEventStreamInfo where
  callback_event_handler : Nat
  stream : Nat
  loop : Nat
  thread_state : Option Nat
deriving DecidableEq, Repr

/-- The interpreter-plus-native state the module manipulates. -/
structure MState where
  /-- `g__pydict_loops`: thread handle ↦ `CFRunLoopRef`. -/
  loops : List (Nat × Nat)
  /-- `g__pydict_streams`: stream handle ↦ `FSEventStreamRef` (as PyCObject). -/
  streams : List (Nat × Nat)
  /-- the `FSEventStreamInfo` structs, keyed by their stream ref (never freed). -/
  infos : List (Nat × FSEventStreamInfo)
  /-- currently swapped-in `PyThreadState` (`none` = NULL). -/
  cur : Option Nat
  /-- pending exception per thread state. -/
  errs : List (Nat × PyErr)
  /-- global interpreter lock held. -/
  gil : Bool
  /-- log of `FSEventStreamCreate` calls: stream ref × watched paths. -/
  created : List (Nat × List String)
  /-- log of `FSEventStreamScheduleWithRunLoop`: stream ref × run loop. -/
  scheduledOn : List (Nat × Nat)
  /-- stream refs currently started (`FSEventStreamStart`). -/
  started : List Nat
  /-- log of `FSEventStreamInvalidate`. -/
  invalidated : List Nat
  /-- log of `FSEventStreamRelease`. -/
  released : List Nat
  /-- log of `CFRunLoopStop` signals. -/
  stoppedLoops : List Nat
  /-- allocator of fresh native refs. -/
  nextRef : Nat
deriving DecidableEq, Repr

/-- `PyErr_Occurred()` for the currently swapped-in thread state. -/
def errOccurred (st : MState) : Bool :=
  match st.cur with
  | none => false
  | some ts => (dictGet ts st.errs).isSome

/-- `PyErr_SetString`-style: set (replace) the pending exception of the
current thread state; no-op with no thread state swapped in. -/
def setErrCur (e : PyErr) (st : MState) : MState :=
  match st.cur with
  | none => st
  | some ts => { st with errs := dictSet ts e st.errs }

/-- `PyCObject_AsVoidPtr`: a valid CObject yields its pointer; NULL sets a
pending TypeError (only if none is pending already) and yields NULL. -/
def pyCObject_AsVoidPtr (v : Option Nat) (st : MState) : Option Nat × MState :=
  match v with
  | some p => (some p, st)
  | none =>
      (none,
       if errOccurred st then st
       else setErrCur (.typeError "PyCObject_AsVoidPtr called with null pointer") st)

/-- `Py_None` as the only non-NULL return value of the module functions. -/
inductive PyRes where
  | pyNone
deriving DecidableEq, Repr

/-- Result of `pyfsevents_unschedule`: either it returns `Py_None`, or it has
passed a NULL stream ref to `FSEventStreamStop` / `Invalidate` / `Release`
(a crash / undefined behavior at the native level). -/
inductive UnschedRes where
  | pyNone
  | undefinedBehavior
deriving DecidableEq, Repr

/-- Exits of `pyfsevents_schedule`; the error constructors label the three
`return NULL;` sites of the C function (already-scheduled check, path-array
creation failure, `FSEventStreamStart` failure). -/
inductive SchedRes where
  | pyNone
  | alreadyScheduled
  | nativeResourceError
  | startFailed
deriving DecidableEq, Repr

/-- `pyfsevents_stop(thread)`: look up the loop for `thread`, extract the
pointer (a NULL lookup result sets a pending TypeError), and signal
`CFRunLoopStop` only when the pointer is non-NULL.  Always returns `Py_None`. -/
def pyfsevents_stop (thread : Nat) (st : MState) : PyRes × MState :=
  let value := dictGet thread st.loops
  let r := pyCObject_AsVoidPtr value st
  match r.1 with
  | some l => (.pyNone, { r.2 with stoppedLoops := l :: r.2.stoppedLoops })
  | none => (.pyNone, r.2)

/-- `pyfsevents_unschedule(stream)`: look up (TypeError pending if absent),
delete from the stream dict (KeyError pending if absent), then stop,
invalidate and release the native stream — with a NULL stream ref when the
handle was absent, which is undefined behavior in the native calls. -/
def pyfsevents_unschedule (stream : Nat) (st : MState) : UnschedRes × MState :=
  let value := dictGet stream st.streams
  let r := pyCObject_AsVoidPtr value st
  let st1 := r.2
  let st2 :=
    if (dictGet stream st1.streams).isSome then
      { st1 with streams := dictDel stream st1.streams }
    else setErrCur .keyError st1
  match r.1 with
  | none => (.undefinedBehavior, st2)
  | some fs =>
      (.pyNone,
       { st2 with
          started := st2.started.filter (fun x => x ≠ fs),
          invalidated := fs :: st2.invalidated,
          released := fs :: st2.released })

/-- `pyfsevents_schedule(thread, stream, callback, paths)`.
`arrayOk` models `CFArrayCreateMutable` succeeding; `startOk` models
`FSEventStreamStart` succeeding; `curLoop` is `CFRunLoopGetCurrent()` of the
calling thread.  Faithful to the C control flow: the already-scheduled check
first, then path-array creation, stream creation, registration of the stream
handle in `g__pydict_streams` BEFORE the start attempt, loop resolution,
population of the info struct (capturing `PyThreadState_Get()`), and finally
the start; a failed start invalidates and releases the stream but does not
touch the dictionary entry. -/
def pyfsevents_schedule (thread stream callback : Nat) (paths : List String)
    (arrayOk startOk : Bool) (curLoop : Nat) (st : MState) : SchedRes × MState :=
  if (dictGet stream st.streams).isSome then (.alreadyScheduled, st)
  else if arrayOk = false then (.nativeResourceError, st)
  else
    let fsRef := st.nextRef
    let st1 := { st with
                  nextRef := st.nextRef + 1,
                  created := (fsRef, paths) :: st.created,
                  streams := dictSet stream fsRef st.streams }
    let lp := match dictGet thread st1.loops with
              | none => curLoop
              | some l => l
    let info : FSEventStreamInfo :=
      { callback_event_handler := callback, stream := fsRef, loop := lp,
        thread_state := st1.cur }
    let st2 := { st1 with
                  scheduledOn := (fsRef, lp) :: st1.scheduledOn,
                  infos := dictSet fsRef info st1.infos }
    if startOk = false then
      (.startFailed,
       { st2 with invalidated := fsRef :: st2.invalidated,
                  released := fsRef :: st2.released })
    else
      (.pyNone, { st2 with started := fsRef :: st2.started })

/-- The empty module state right after `init_fsevents`, with thread state 1
current. -/
def initState : MState :=
  { loops := [], streams := [], infos := [], cur := some 1, errs := [],
    gil := true, created := [], scheduledOn := [], started := [],
    invalidated := [], released := [], stoppedLoops := [], nextRef := 0 }

/-- Outcome of `PyObject_CallFunction` on the registered callback:
normal return, NULL with the callback's exception pending, or NULL with no
exception pending (the case the C code covers with a synthesized error). -/
inductive CbOutcome where
  | ok
  | errNull
  | bareNull
deriving DecidableEq, Repr

/-- Oracles for the fallible allocations inside `event_stream_handler`:
the two `PyList_New` calls, and `PyString_FromString` / `PyInt_FromLong`
per event index, plus the callback's outcome. -/
structure HandlerOracle where
  pathListOk : Bool
  maskListOk : Bool
  strOk : Nat → Bool
  intOk : Nat → Bool
  cb : CbOutcome

/-- A recorded invocation of the registered Python callback: the thread
state it ran under, and its two list arguments. -/
structure Invocation where
  ctx : Option Nat
  argPaths : List String
  argMasks : List Nat
deriving DecidableEq, Repr

/-- How `event_stream_handler` exited: normally, or by one of the two early
`return NULL;` statements (which in the C source return from a `void`
function without restoring the thread state or releasing the GIL). -/
inductive HandlerOutcome where
  | normal
  | listAllocFailed
  | itemAllocFailed (i : Nat)
deriving DecidableEq, Repr

structure HandlerResult where
  state : MState
  invoked : Option Invocation
  outcome : HandlerOutcome
deriving DecidableEq, Repr

/-- The marshalling loop of `event_stream_handler`: convert event paths and
masks at indices `k, k+1, …` into the two Python lists, aborting at the
first failed conversion (returning its index). -/
def marshalEvents (o : HandlerOracle) :
    Nat → List (String × Nat) → Except Nat (List String × List Nat)
  | _, [] => .ok ([], [])
  | i, p :: rest =>
    if o.strOk i && o.intOk i then
      match marshalEvents o (i + 1) rest with
      | .ok (ps, ms) => .ok (p.1 :: ps, p.2 :: ms)
      | .error j => .error j
    else .error i

/-- `event_stream_handler`: acquire the GIL, swap in the stream's captured
thread state, build the two event lists, call the callback, on callback
failure synthesize a ValueError if no exception is pending and stop the
stream's run loop, then swap the previous thread state back and release the
GIL.  The two allocation-failure paths return early WITHOUT the restore /
release (as the C source does). -/
def event_stream_handler (info : FSEventStreamInfo)
    (events : List (String × Nat)) (o : HandlerOracle) (st : MState) :
    HandlerResult :=
  let saved := st.cur
  let st1 := { st with gil := true, cur := info.thread_state }
  if o.pathListOk && o.maskListOk then
    match marshalEvents o 0 events with
    | .error i => { state := st1, invoked := none, outcome := .itemAllocFailed i }
    | .ok (ps, ms) =>
      let inv : Invocation :=
        { ctx := info.thread_state, argPaths := ps, argMasks := ms }
      let st2 :=
        match o.cb with
        | .ok => st1
        | .errNull =>
            let s := setErrCur .callbackExc st1
            { s with stoppedLoops := info.loop :: s.stoppedLoops }
        | .bareNull =>
            let s :=
              if errOccurred st1 then st1
              else setErrCur (.valueError "Unable to call callback function.") st1
            { s with stoppedLoops := info.loop :: s.stoppedLoops }
      { state := { st2 with cur := saved, gil := false },
        invoked := some inv, outcome := .normal }
  else { state := st1, invoked := none, outcome := .listAllocFailed }

/-- The state of `pyfsevents_loop` just before it blocks: an existing loop
registration for `thread` is reused, otherwise `CFRunLoopGetCurrent()` is
registered under `thread`. -/
def loopPre (thread curLoop : Nat) (st : MState) : MState :=
  match dictGet thread st.loops with
  | some _ => st
  | none => { st with loops := dictSet thread curLoop st.loops }

/-- `pyfsevents_loop(thread)`: register (or reuse) the current thread's run
loop under `thread`, release the GIL and swap out the thread state
(`Py_BEGIN_ALLOW_THREADS`), block in `CFRunLoopRun` — modelled by the
arbitrary state transformer `runPhase` —, reacquire
(`Py_END_ALLOW_THREADS`), delete `thread` from the loop dict, and return
NULL if an exception is pending, else `Py_None`. -/
def pyfsevents_loop (thread curLoop : Nat) (runPhase : MState → MState)
    (st : MState) : Option PyRes × MState :=
  let st1 := loopPre thread curLoop st
  let saved := st1.cur
  let st2 := { st1 with cur := none, gil := false }
  let st3 := runPhase st2
  let st4 := { st3 with cur := saved, gil := true }
  let st5 :=
    if (dictGet thread st4.loops).isSome then
      { st4 with loops := dictDel thread st4.loops }
    else setErrCur .keyError st4
  ((if errOccurred st5 then none else some .pyNone), st5)

/-- A batch of deliveries performed by the native engine while a run loop is
blocked: each names a stream ref whose info struct drives the handler. -/
def runDeliveries (ds : List (Nat × List (String × Nat) × HandlerOracle))
    (st : MState) : MState :=
  ds.foldl
    (fun s d =>
      match dictGet d.1 s.infos with
      | some info => (event_stream_handler info d.2.1 d.2.2 s).state
      | none => s)
    st

/-- The module's operations, for stating properties over arbitrary call
sequences. -/
inductive Op where
  | opSchedule (thread stream callback : Nat) (paths : List String)
      (arrayOk startOk : Bool) (curLoop : Nat)
  | opUnschedule (stream : Nat)
  | opStop (thread : Nat)
  | opLoop (thread curLoop : Nat)
      (ds : List (Nat × List (String × Nat) × HandlerOracle))
  | opDeliver (streamRef : Nat) (events : List (String × Nat))
      (o : HandlerOracle)

def step : Op → MState → MState
  | .opSchedule t s c p a b cl, m => (pyfsevents_schedule t s c p a b cl m).2
  | .opUnschedule s, m => (pyfsevents_unschedule s m).2
  | .opStop t, m => (pyfsevents_stop t m).2
  | .opLoop t cl ds, m => (pyfsevents_loop t cl (runDeliveries ds) m).2
  | .opDeliver r ev o, m =>
      match dictGet r m.infos with
      | some info => (event_stream_handler info ev o m).state
      | none => m

def run : List Op → MState → MState
  | [], m => m
  | op :: rest, m => run rest (step op m)

/-- Well-formedness: every allocated info struct has a ref below the
allocator counter. -/
def WFinfos (m : MState) : Prop := ∀ p ∈ m.infos, p.1 < m.nextRef

/-! Concrete scenario states used by the claim theorems below. -/

/-- Stream metadata as captured by a schedule call in thread state 2, for a
stream created on run loop 5 with callback 7. -/
def c1Info : FSEventStreamInfo :=
  { callback_event_handler := 7, stream := 3, loop := 5, thread_state := some 2 }

/-- Handler oracle in which the `PyList_New` call for the path list fails. -/
def c1Oracle : HandlerOracle :=
  { pathListOk := false, maskListOk := true,
    strOk := fun _ => true, intOk := fun _ => true, cb := .ok }

/-- Same oracle with the allocation succeeding. -/
def c1OracleOk : HandlerOracle :=
  { pathListOk := true, maskListOk := true,
    strOk := fun _ => true, intOk := fun _ => true, cb := .ok }

/-- The state of the native engine thread at delivery time: no Python thread
state swapped in, GIL not held. -/
def c1State : MState := { initState with cur := none, gil := false }

/-- State after successfully scheduling stream handle 5. -/
def c3AfterSchedule : MState :=
  (pyfsevents_schedule 1 5 3 ["/a"] true true 4 initState).2

/-- State after the first (successful) unschedule of handle 5. -/
def c3AfterFirst : MState := (pyfsevents_unschedule 5 c3AfterSchedule).2

/-- A state with one registered stream and no registered loops. -/
def c4State : MState := { initState with streams := [(8, 0)] }

/-- A state with stream handle 2 live (bound to stream ref 7). -/
def c6State : MState := { initState with streams := [(2, 7)] }

/-- Oracle in which every allocation succeeds and the callback returns
normally. -/
def c7Oracle : HandlerOracle :=
  { pathListOk := true, maskListOk := true,
    strOk := fun _ => true, intOk := fun _ => true, cb := .ok }

/-- Stream metadata captured in thread state 3. -/
def c7Info : FSEventStreamInfo :=
  { callback_event_handler := 11, stream := 6, loop := 4,
    thread_state := some 3 }

/-- Native engine thread at delivery time. -/
def c7State : MState := { initState with cur := none, gil := false }

/-- A state with run loop 9 registered for thread handle 1. -/
def c8StateReg : MState := { initState with loops := [(1, 9)] }

/-- Stream metadata captured in thread state 1 for a stream on run loop 4. -/
def c5Info : FSEventStreamInfo :=
  { callback_event_handler := 7, stream := 0, loop := 4, thread_state := some 1 }

/-- Oracle whose callback returns NULL without setting an exception. -/
def c5Oracle : HandlerOracle :=
  { pathListOk := true, maskListOk := true,
    strOk := fun _ => true, intOk := fun _ => true, cb := .bareNull }

/-- Oracle with all allocations succeeding and a well-behaved callback. -/
def c9Oracle : HandlerOracle :=
  { pathListOk := true, maskListOk := true,
    strOk := fun _ => true, intOk := fun _ => true, cb := .ok }

/-- A metadata record captured in thread state 1. -/
def c9Info : FSEventStreamInfo :=
  { callback_event_handler := 3, stream := 0, loop := 4, thread_state := some 1 }

/-- A state owning stream ref 0 with metadata `c9Info`. -/
def c9M : MState := { initState with infos := [(0, c9Info)], nextRef := 1 }

/-- A mixed operation sequence: a stop, a (crashing) unschedule of an
unknown handle, a loop run with one delivery, and a bare delivery. -/
def c9Ops : List Op :=
  [Op.opStop 1, Op.opUnschedule 7, Op.opLoop 1 4 [(0, [("/x", 2)], c9Oracle)],
   Op.opDeliver 0 [("/y", 6)] c9Oracle]

theorem dictGet_dictDel_self {α : Type} (k : Nat) (d : List (Nat × α)) :
    dictGet k (dictDel k d) = none := by
  induction d with
  | nil => rfl
  | cons p rest ih =>
    by_cases h : p.1 = k
    · simp [dictDel, h, ih]
    · have h2 : ¬k = p.1 := fun hk => h hk.symm
      simp [dictDel, dictGet, h, h2, ih]

theorem dictGet_dictDel_ne {α : Type} (k k' : Nat) (d : List (Nat × α))
    (h : k ≠ k') : dictGet k (dictDel k' d) = dictGet k d := by
  induction d with
  | nil => rfl
  | cons p rest ih =>
    by_cases hp : p.1 = k'
    · have h2 : k ≠ p.1 := fun hk => h (hk ▸ hp)
      simp [dictDel, hp, dictGet, h2, h, ih]
    · by_cases hk : k = p.1
      · simp [dictDel, hp, dictGet, hk]
      · simp [dictDel, hp, dictGet, hk, ih]

theorem dictGet_dictSet_self {α : Type} (k : Nat) (v : α) (d : List (Nat × α)) :
    dictGet k (dictSet k v d) = some v := by
  simp [dictSet, dictGet]

theorem dictGet_dictSet_ne {α : Type} (k k' : Nat) (v : α) (d : List (Nat × α))
    (h : k ≠ k') : dictGet k (dictSet k' v d) = dictGet k d := by
  simp [dictSet, dictGet, h, dictGet_dictDel_ne k k' d h]

theorem dictGet_mem {α : Type} {k : Nat} {d : List (Nat × α)} {v : α}
    (h : dictGet k d = some v) : (k, v) ∈ d := by
  induction d with
  | nil => simp [dictGet] at h
  | cons p rest ih =>
    cases p with
    | mk a b =>
      by_cases hk : k = a
      · simp [dictGet, hk] at h
        simp [hk, h]
      · simp [dictGet, hk] at h
        exact List.mem_cons_of_mem _ (ih h)

theorem mem_dictDel {α : Type} {p : Nat × α} {k : Nat} {d : List (Nat × α)}
    (h : p ∈ dictDel k d) : p ∈ d := by
  induction d with
  | nil => simp [dictDel] at h
  | cons q rest ih =>
    by_cases hq : q.1 = k
    · simp [dictDel, hq] at h
      exact List.mem_cons_of_mem _ (ih h)
    · simp [dictDel, hq] at h
      rcases h with h | h
      · simp [h]
      · exact List.mem_cons_of_mem _ (ih h)

/-- Claim C1: the event delivery bridge is claimed to restore the previous
thread state and release the GIL on every exit path.  This FAILS on the
code: when list construction fails, `event_stream_handler` returns (via
`return NULL;` in a void function) with the GIL still held and the stream's
thread state still swapped in, while on the successful path both are
restored.  Failing input: a one-event delivery in which the `PyList_New`
allocation of the path list fails. -/
theorem c1_gil_leaked_on_alloc_failure :
    c1State.gil = false
    ∧ c1State.cur = none
    ∧ (event_stream_handler c1Info [("/tmp/x", 1)] c1Oracle c1State).outcome
        = .listAllocFailed
    ∧ (event_stream_handler c1Info [("/tmp/x", 1)] c1Oracle c1State).state.gil
        = true
    ∧ (event_stream_handler c1Info [("/tmp/x", 1)] c1Oracle c1State).state.cur
        = some 2
    ∧ (event_stream_handler c1Info [("/tmp/x", 1)] c1OracleOk c1State).state.gil
        = false
    ∧ (event_stream_handler c1Info [("/tmp/x", 1)] c1OracleOk c1State).state.cur
        = none := by
  decide

/-- Claim C2 counterexample: `schedule` with `FSEventStreamStart` failing
returns `startFailed`, yet the stream handle (2) IS registered in the stream
registry afterwards — the C code inserts into `g__pydict_streams` before the
start attempt and never removes the entry on failure.  This refutes "the
stream handle is not registered, so the registry state is the same as
before the call". -/
theorem c2_counterexample :
    (pyfsevents_schedule 1 2 3 ["/a"] true false 4 initState).1 = .startFailed
    ∧ dictGet 2 initState.streams = none
    ∧ dictGet 2 (pyfsevents_schedule 1 2 3 ["/a"] true false 4 initState).2.streams
        = some 0 := by
  decide

/-- Claim C2 (amended): when starting the native stream fails, `schedule`
invalidates and releases the just-created stream and returns `startFailed`
(the stream is not left started), but the stream handle REMAINS registered
in the stream registry, bound to the already-released stream ref —
registration happens before the start attempt and is not rolled back. -/
theorem c2_start_failed_stream_released_but_still_registered
    (t s c cl : Nat) (p : List String) (st : MState)
    (habs : dictGet s st.streams = none) :
    (pyfsevents_schedule t s c p true false cl st).1 = .startFailed
    ∧ st.nextRef ∈ (pyfsevents_schedule t s c p true false cl st).2.invalidated
    ∧ st.nextRef ∈ (pyfsevents_schedule t s c p true false cl st).2.released
    ∧ (pyfsevents_schedule t s c p true false cl st).2.started = st.started
    ∧ dictGet s (pyfsevents_schedule t s c p true false cl st).2.streams
        = some st.nextRef := by
  simp [pyfsevents_schedule, habs, dictGet_dictSet_self]

theorem c2_witness :
    dictGet 2 initState.streams = none
    ∧ ((pyfsevents_schedule 1 2 3 ["/a"] true false 4 initState).1 = .startFailed
       ∧ initState.nextRef
           ∈ (pyfsevents_schedule 1 2 3 ["/a"] true false 4 initState).2.invalidated
       ∧ initState.nextRef
           ∈ (pyfsevents_schedule 1 2 3 ["/a"] true false 4 initState).2.released
       ∧ (pyfsevents_schedule 1 2 3 ["/a"] true false 4 initState).2.started
           = initState.started
       ∧ dictGet 2 (pyfsevents_schedule 1 2 3 ["/a"] true false 4 initState).2.streams
           = some initState.nextRef) :=
  ⟨by decide,
   c2_start_failed_stream_released_but_still_registered 1 2 3 4 ["/a"] initState
     (by decide)⟩

/-- Claim C3: `unschedule` on an absent handle is claimed to fail cleanly
with `NotScheduled`.  This FAILS on the code: there is no absence check, so
the NULL lookup result is fed to `PyCObject_AsVoidPtr` and the NULL stream
ref is passed to `FSEventStreamStop` / `Invalidate` / `Release` — undefined
behavior (a crash), not a clean error.  The claim's positive half does hold:
after a successful schedule of handle 5, the first unschedule returns
success and removes the handle; the second hits the undefined-behavior
path. -/
theorem c3_unschedule_absent_hits_undefined_behavior :
    (pyfsevents_unschedule 5 initState).1 = .undefinedBehavior
    ∧ (pyfsevents_unschedule 5 c3AfterSchedule).1 = .pyNone
    ∧ dictGet 5 c3AfterFirst.streams = none
    ∧ (pyfsevents_unschedule 5 c3AfterFirst).1 = .undefinedBehavior := by
  decide

/-- Claim C4: `stop` on an unregistered thread handle is claimed to be a
no-op returning success.  The code does return `Py_None`, signals no loop
and modifies neither registry — but it also passes the NULL lookup result
to `PyCObject_AsVoidPtr`, which leaves a pending TypeError in the calling
thread state, so the call is not error-free: the stale exception can
surface later (e.g. in `pyfsevents_loop`'s final `PyErr_Occurred` check). -/
theorem c4_stop_absent_leaves_pending_error :
    (pyfsevents_stop 2 c4State).1 = .pyNone
    ∧ (pyfsevents_stop 2 c4State).2.loops = c4State.loops
    ∧ (pyfsevents_stop 2 c4State).2.streams = c4State.streams
    ∧ (pyfsevents_stop 2 c4State).2.stoppedLoops = c4State.stoppedLoops
    ∧ dictGet 1 c4State.errs = none
    ∧ dictGet 1 (pyfsevents_stop 2 c4State).2.errs
        = some (.typeError "PyCObject_AsVoidPtr called with null pointer") := by
  decide

/-- Claim C6: scheduling a stream handle that is currently registered fails
at the `PyDict_Contains` check before any native resource is created or any
state is touched: the result is the already-scheduled error and the state —
including the existing registered stream — is returned unchanged. -/
theorem c6_schedule_on_live_handle_fails_already_scheduled
    (t s c cl : Nat) (p : List String) (a b : Bool) (st : MState) (v : Nat)
    (h : dictGet s st.streams = some v) :
    pyfsevents_schedule t s c p a b cl st = (.alreadyScheduled, st) := by
  simp [pyfsevents_schedule, h]

theorem c6_witness :
    dictGet 2 c6State.streams = some 7
    ∧ pyfsevents_schedule 1 2 3 ["/b"] true true 4 c6State
        = (.alreadyScheduled, c6State) :=
  ⟨by decide,
   c6_schedule_on_live_handle_fails_already_scheduled 1 2 3 4 ["/b"] true true
     c6State 7 (by decide)⟩

/-- Claim C10: `schedule` with an empty path list is accepted: the C code
never checks `paths` for emptiness (`PyList_Size` is 0, the marshalling loop
does not run), so a stream watching the empty path set is created,
registered and started, and the call returns success. -/
theorem c10_schedule_accepts_empty_paths (t s c cl : Nat) (st : MState)
    (habs : dictGet s st.streams = none) :
    (pyfsevents_schedule t s c [] true true cl st).1 = .pyNone
    ∧ dictGet s (pyfsevents_schedule t s c [] true true cl st).2.streams
        = some st.nextRef
    ∧ (st.nextRef, ([] : List String))
        ∈ (pyfsevents_schedule t s c [] true true cl st).2.created
    ∧ st.nextRef ∈ (pyfsevents_schedule t s c [] true true cl st).2.started := by
  simp [pyfsevents_schedule, habs, dictGet_dictSet_self]

@[simp] theorem setErrCur_loops (e : PyErr) (st : MState) :
    (setErrCur e st).loops = st.loops := by
  cases h : st.cur <;> simp [setErrCur, h]

@[simp] theorem setErrCur_streams (e : PyErr) (st : MState) :
    (setErrCur e st).streams = st.streams := by
  cases h : st.cur <;> simp [setErrCur, h]

@[simp] theorem setErrCur_infos (e : PyErr) (st : MState) :
    (setErrCur e st).infos = st.infos := by
  cases h : st.cur <;> simp [setErrCur, h]

@[simp] theorem setErrCur_cur (e : PyErr) (st : MState) :
    (setErrCur e st).cur = st.cur := by
  cases h : st.cur <;> simp [setErrCur, h]

@[simp] theorem setErrCur_gil (e : PyErr) (st : MState) :
    (setErrCur e st).gil = st.gil := by
  cases h : st.cur <;> simp [setErrCur, h]

@[simp] theorem setErrCur_stoppedLoops (e : PyErr) (st : MState) :
    (setErrCur e st).stoppedLoops = st.stoppedLoops := by
  cases h : st.cur <;> simp [setErrCur, h]

@[simp] theorem setErrCur_started (e : PyErr) (st : MState) :
    (setErrCur e st).started = st.started := by
  cases h : st.cur <;> simp [setErrCur, h]

@[simp] theorem setErrCur_nextRef (e : PyErr) (st : MState) :
    (setErrCur e st).nextRef = st.nextRef := by
  cases h : st.cur <;> simp [setErrCur, h]

@[simp] theorem loopPre_cur (t cl : Nat) (st : MState) :
    (loopPre t cl st).cur = st.cur := by
  cases h : dictGet t st.loops <;> simp [loopPre, h]

@[simp] theorem loopPre_errs (t cl : Nat) (st : MState) :
    (loopPre t cl st).errs = st.errs := by
  cases h : dictGet t st.loops <;> simp [loopPre, h]

@[simp] theorem loopPre_infos (t cl : Nat) (st : MState) :
    (loopPre t cl st).infos = st.infos := by
  cases h : dictGet t st.loops <;> simp [loopPre, h]

@[simp] theorem loopPre_streams (t cl : Nat) (st : MState) :
    (loopPre t cl st).streams = st.streams := by
  cases h : dictGet t st.loops <;> simp [loopPre, h]

@[simp] theorem loopPre_stoppedLoops (t cl : Nat) (st : MState) :
    (loopPre t cl st).stoppedLoops = st.stoppedLoops := by
  cases h : dictGet t st.loops <;> simp [loopPre, h]

@[simp] theorem loopPre_nextRef (t cl : Nat) (st : MState) :
    (loopPre t cl st).nextRef = st.nextRef := by
  cases h : dictGet t st.loops <;> simp [loopPre, h]

theorem loopPre_lookup_isSome (t cl : Nat) (st : MState) :
    (dictGet t (loopPre t cl st).loops).isSome = true := by
  cases h : dictGet t st.loops <;> simp [loopPre, h, dictGet_dictSet_self]

theorem marshalEvents_all_ok (o : HandlerOracle)
    (h : ∀ i, o.strOk i = true ∧ o.intOk i = true) (k : Nat)
    (ev : List (String × Nat)) :
    marshalEvents o k ev = .ok (ev.map Prod.fst, ev.map Prod.snd) := by
  induction ev generalizing k with
  | nil => rfl
  | cons p rest ih => simp [marshalEvents, (h k).1, (h k).2, ih]

/-- Claim C7: when the marshalling allocations succeed, the handler builds
the path list and the mask list in input order with length equal to the
event count, and invokes the registered callback with exactly these two
lists (whatever the callback then does). -/
theorem c7_marshalling_preserves_order_and_length
    (info : FSEventStreamInfo) (ev : List (String × Nat)) (o : HandlerOracle)
    (st : MState)
    (h1 : o.pathListOk = true) (h2 : o.maskListOk = true)
    (h3 : ∀ i, o.strOk i = true ∧ o.intOk i = true) :
    (event_stream_handler info ev o st).invoked
      = some { ctx := info.thread_state,
               argPaths := ev.map Prod.fst, argMasks := ev.map Prod.snd }
    ∧ (ev.map Prod.fst).length = ev.length
    ∧ (ev.map Prod.snd).length = ev.length := by
  refine ⟨?_, by simp, by simp⟩
  cases hcb : o.cb <;>
    simp [event_stream_handler, h1, h2, marshalEvents_all_ok o h3 0 ev, hcb]

theorem c7_witness :
    (∀ i, c7Oracle.strOk i = true ∧ c7Oracle.intOk i = true)
    ∧ ((event_stream_handler c7Info [("/a", 3), ("/b", 5)] c7Oracle c7State).invoked
         = some { ctx := c7Info.thread_state,
                  argPaths := [("/a", 3), ("/b", 5)].map Prod.fst,
                  argMasks := [("/a", 3), ("/b", 5)].map Prod.snd }
       ∧ ([("/a", 3), ("/b", 5)].map Prod.fst).length = [("/a", 3), ("/b", 5)].length
       ∧ ([("/a", 3), ("/b", 5)].map Prod.snd).length = [("/a", 3), ("/b", 5)].length) :=
  ⟨fun _ => ⟨rfl, rfl⟩,
   c7_marshalling_preserves_order_and_length c7Info [("/a", 3), ("/b", 5)]
     c7Oracle c7State rfl rfl (fun _ => ⟨rfl, rfl⟩)⟩

theorem delItem_lookup_none (t : Nat) (m : MState) :
    dictGet t
      (if (dictGet t m.loops).isSome then { m with loops := dictDel t m.loops }
       else setErrCur .keyError m).loops = none := by
  by_cases h : (dictGet t m.loops).isSome
  · simp [h, dictGet_dictDel_self]
  · have hn : dictGet t m.loops = none := by
      cases hg : dictGet t m.loops
      · rfl
      · simp [hg] at h
    simp [h, hn]

/-- Claim C8: `loop(thread_handle)` registers the current thread's run loop
under the handle before blocking when none is registered, reuses (and does
not replace) an already-registered one, and — whatever happens while the
loop runs — the handle is deleted from the loop registry before the call
returns. -/
theorem c8_loop_registry_protocol (t cl : Nat) (st : MState) :
    (dictGet t st.loops = none →
       dictGet t (loopPre t cl st).loops = some cl)
    ∧ (∀ l, dictGet t st.loops = some l → loopPre t cl st = st)
    ∧ (∀ runPhase : MState → MState,
         dictGet t ((pyfsevents_loop t cl runPhase st).2).loops = none) := by
  refine ⟨?_, ?_, ?_⟩
  · intro h; simp [loopPre, h, dictGet_dictSet_self]
  · intro l h; simp [loopPre, h]
  · intro rp
    simp only [pyfsevents_loop]
    exact delItem_lookup_none t
      { rp { loopPre t cl st with cur := none, gil := false } with
          cur := (loopPre t cl st).cur, gil := true }

theorem c8_witness :
    dictGet 1 initState.loops = none
    ∧ dictGet 1 (loopPre 1 4 initState).loops = some 4
    ∧ dictGet 1 c8StateReg.loops = some 9
    ∧ loopPre 1 4 c8StateReg = c8StateReg
    ∧ dictGet 1 ((pyfsevents_loop 1 4 id initState).2).loops = none :=
  ⟨by decide,
   (c8_loop_registry_protocol 1 4 initState).1 (by decide),
   by decide,
   (c8_loop_registry_protocol 1 4 c8StateReg).2.1 9 (by decide),
   (c8_loop_registry_protocol 1 4 initState).2.2 id⟩

/-- When the callback invocation fails, the handler's net effect on the
state is: the stream's captured thread state gets a pending error (the
callback's own exception, or the synthesized ValueError when none was
pending), the stream's run loop is signalled to stop, and the GIL is
released with the previous thread state restored. -/
theorem handler_cb_failure (info : FSEventStreamInfo)
    (ev : List (String × Nat)) (o : HandlerOracle) (s : MState) (ts : Nat)
    (e : PyErr)
    (hts : info.thread_state = some ts)
    (hnoerr : dictGet ts s.errs = none)
    (h1 : o.pathListOk = true) (h2 : o.maskListOk = true)
    (h3 : ∀ i, o.strOk i = true ∧ o.intOk i = true)
    (hcb : (o.cb = .errNull ∧ e = .callbackExc)
         ∨ (o.cb = .bareNull
            ∧ e = .valueError "Unable to call callback function.")) :
    (event_stream_handler info ev o s).state
      = { s with errs := dictSet ts e s.errs,
                 stoppedLoops := info.loop :: s.stoppedLoops,
                 gil := false } := by
  rcases hcb with ⟨hc, he⟩ | ⟨hc, he⟩ <;>
    simp [event_stream_handler, h1, h2, marshalEvents_all_ok o h3 0 ev, hc, he,
          setErrCur, hts, errOccurred, hnoerr]

/-- Claim C5: if the callback's invocation fails during a delivery that
happens while `loop` is blocked, then the pending error recorded against
the stream's captured thread state is the callback's own exception — or the
synthesized generic ValueError ("Unable to call callback function.") when
the callback failed without setting one —, the stream's owning run loop is
signalled to stop, and the `loop` call returns NULL (error) instead of
`Py_None`, with that error pending. -/
theorem c5_callback_failure_stops_loop_and_fails_run
    (t cl ts : Nat) (info : FSEventStreamInfo) (ev : List (String × Nat))
    (o : HandlerOracle) (st : MState) (e : PyErr)
    (hts : info.thread_state = some ts)
    (hcur : st.cur = some ts)
    (hnoerr : dictGet ts st.errs = none)
    (h1 : o.pathListOk = true) (h2 : o.maskListOk = true)
    (h3 : ∀ i, o.strOk i = true ∧ o.intOk i = true)
    (hcb : (o.cb = .errNull ∧ e = .callbackExc)
         ∨ (o.cb = .bareNull
            ∧ e = .valueError "Unable to call callback function.")) :
    (pyfsevents_loop t cl
        (fun s => (event_stream_handler info ev o s).state) st).1 = none
    ∧ dictGet ts
        ((pyfsevents_loop t cl
            (fun s => (event_stream_handler info ev o s).state) st).2).errs
        = some e
    ∧ info.loop
        ∈ ((pyfsevents_loop t cl
            (fun s => (event_stream_handler info ev o s).state) st).2).stoppedLoops := by
  have hh := handler_cb_failure info ev o
      { loopPre t cl st with cur := none, gil := false } ts e hts
      (by simpa using hnoerr) h1 h2 h3 hcb
  simp only [pyfsevents_loop, hh]
  have hsome : (dictGet t (loopPre t cl st).loops).isSome = true :=
    loopPre_lookup_isSome t cl st
  simp [hsome, errOccurred, hcur, dictGet_dictSet_self]

theorem c5_witness :
    c5Info.thread_state = some 1
    ∧ initState.cur = some 1
    ∧ dictGet 1 initState.errs = none
    ∧ ((pyfsevents_loop 1 4
          (fun s => (event_stream_handler c5Info [("/a", 8)] c5Oracle s).state)
          initState).1 = none
       ∧ dictGet 1
           ((pyfsevents_loop 1 4
              (fun s => (event_stream_handler c5Info [("/a", 8)] c5Oracle s).state)
              initState).2).errs
           = some (.valueError "Unable to call callback function.")
       ∧ c5Info.loop
           ∈ ((pyfsevents_loop 1 4
              (fun s => (event_stream_handler c5Info [("/a", 8)] c5Oracle s).state)
              initState).2).stoppedLoops) :=
  ⟨rfl, rfl, rfl,
   c5_callback_failure_stops_loop_and_fails_run 1 4 1 c5Info [("/a", 8)]
     c5Oracle initState (.valueError "Unable to call callback function.")
     rfl rfl rfl rfl rfl (fun _ => ⟨rfl, rfl⟩) (Or.inr ⟨rfl, rfl⟩)⟩

/-- The handler never touches the info-struct table or the allocator. -/
theorem handler_preserves (info : FSEventStreamInfo)
    (ev : List (String × Nat)) (o : HandlerOracle) (st : MState) :
    (event_stream_handler info ev o st).state.infos = st.infos
    ∧ (event_stream_handler info ev o st).state.nextRef = st.nextRef := by
  unfold event_stream_handler
  cases h : (o.pathListOk && o.maskListOk)
  · simp
  · cases hm : marshalEvents o 0 ev with
    | error i => simp [hm]
    | ok pr =>
      cases pr
      cases hcb : o.cb <;> simp [hm, hcb] <;> split <;> simp

theorem runDeliveries_preserves
    (ds : List (Nat × List (String × Nat) × HandlerOracle)) :
    ∀ st : MState, (runDeliveries ds st).infos = st.infos
      ∧ (runDeliveries ds st).nextRef = st.nextRef := by
  induction ds with
  | nil => intro st; exact ⟨rfl, rfl⟩
  | cons d rest ih =>
    intro st
    have hstep : runDeliveries (d :: rest) st
        = runDeliveries rest
            (match dictGet d.1 st.infos with
             | some info => (event_stream_handler info d.2.1 d.2.2 st).state
             | none => st) := rfl
    rw [hstep]
    cases hg : dictGet d.1 st.infos with
    | none => simp only [hg]; exact ih st
    | some info =>
      simp only [hg]
      have ha := ih ((event_stream_handler info d.2.1 d.2.2 st).state)
      have hb := handler_preserves info d.2.1 d.2.2 st
      exact ⟨ha.1.trans hb.1, ha.2.trans hb.2⟩

theorem unschedule_preserves (s : Nat) (m : MState) :
    (pyfsevents_unschedule s m).2.infos = m.infos
    ∧ (pyfsevents_unschedule s m).2.nextRef = m.nextRef := by
  unfold pyfsevents_unschedule pyCObject_AsVoidPtr
  cases hv : dictGet s m.streams with
  | some fs => simp [hv]
  | none => by_cases ho : errOccurred m = true <;> simp [hv, ho]

theorem stop_preserves (t : Nat) (m : MState) :
    (pyfsevents_stop t m).2.infos = m.infos
    ∧ (pyfsevents_stop t m).2.nextRef = m.nextRef := by
  unfold pyfsevents_stop pyCObject_AsVoidPtr
  cases hv : dictGet t m.loops with
  | some l => simp [hv]
  | none => by_cases ho : errOccurred m = true <;> simp [hv, ho]

theorem loop_preserves (t cl : Nat) (rp : MState → MState) (st : MState)
    (hrp : ∀ s : MState, (rp s).infos = s.infos ∧ (rp s).nextRef = s.nextRef) :
    ((pyfsevents_loop t cl rp st).2).infos = st.infos
    ∧ ((pyfsevents_loop t cl rp st).2).nextRef = st.nextRef := by
  have hA : ∀ s : MState, (rp s).infos = s.infos := fun s => (hrp s).1
  have hB : ∀ s : MState, (rp s).nextRef = s.nextRef := fun s => (hrp s).2
  simp only [pyfsevents_loop]
  split <;> simp [hA, hB]

/-- `schedule` either leaves the info table and allocator alone (early
failure) or allocates exactly one fresh info struct at the old allocator
value. -/
theorem schedule_infos_cases (t s c : Nat) (p : List String) (a b : Bool)
    (cl : Nat) (m : MState) :
    ((pyfsevents_schedule t s c p a b cl m).2.infos = m.infos
      ∧ (pyfsevents_schedule t s c p a b cl m).2.nextRef = m.nextRef)
    ∨ (∃ info : FSEventStreamInfo,
        (pyfsevents_schedule t s c p a b cl m).2.infos
          = dictSet m.nextRef info m.infos
        ∧ (pyfsevents_schedule t s c p a b cl m).2.nextRef = m.nextRef + 1) := by
  unfold pyfsevents_schedule
  by_cases h1 : (dictGet s m.streams).isSome
  · left; simp [h1]
  · by_cases h2 : a = false
    · left; simp [h1, h2]
    · right
      refine ⟨{ callback_event_handler := c, stream := m.nextRef,
                loop := (match dictGet t m.loops with | none => cl | some l => l),
                thread_state := m.cur }, ?_, ?_⟩ <;>
        by_cases h3 : b = false <;> simp [h1, h2, h3]

theorem step_infos_lookup (op : Op) (m : MState) (r : Nat)
    (i : FSEventStreamInfo) (hwf : WFinfos m)
    (h : dictGet r m.infos = some i) :
    dictGet r (step op m).infos = some i := by
  cases op with
  | opSchedule t s c p a b cl =>
    rcases schedule_infos_cases t s c p a b cl m with ⟨he, _⟩ | ⟨info, he, _⟩
    · simp only [step]; rw [he]; exact h
    · have hr : r ≠ m.nextRef := Nat.ne_of_lt (hwf (r, i) (dictGet_mem h))
      simp only [step]; rw [he, dictGet_dictSet_ne r m.nextRef info m.infos hr]
      exact h
  | opUnschedule s =>
    simp only [step]; rw [(unschedule_preserves s m).1]; exact h
  | opStop t =>
    simp only [step]; rw [(stop_preserves t m).1]; exact h
  | opLoop t cl ds =>
    simp only [step]
    rw [(loop_preserves t cl (runDeliveries ds) m
          (fun s => runDeliveries_preserves ds s)).1]
    exact h
  | opDeliver r2 ev o =>
    simp only [step]
    cases hg : dictGet r2 m.infos with
    | none => exact h
    | some info =>
      rw [(handler_preserves info ev o m).1]; exact h

theorem step_nextRef_mono (op : Op) (m : MState) :
    m.nextRef ≤ (step op m).nextRef := by
  cases op with
  | opSchedule t s c p a b cl =>
    rcases schedule_infos_cases t s c p a b cl m with ⟨_, hn⟩ | ⟨_, _, hn⟩ <;>
      simp only [step] <;> rw [hn] <;> omega
  | opUnschedule s =>
    simp only [step]; rw [(unschedule_preserves s m).2]
  | opStop t =>
    simp only [step]; rw [(stop_preserves t m).2]
  | opLoop t cl ds =>
    simp only [step]
    rw [(loop_preserves t cl (runDeliveries ds) m
          (fun s => runDeliveries_preserves ds s)).2]
  | opDeliver r2 ev o =>
    simp only [step]
    cases hg : dictGet r2 m.infos with
    | none => exact Nat.le_refl _
    | some info => rw [(handler_preserves info ev o m).2]

theorem step_wf (op : Op) (m : MState) (hwf : WFinfos m) :
    WFinfos (step op m) := by
  cases op with
  | opSchedule t s c p a b cl =>
    rcases schedule_infos_cases t s c p a b cl m with ⟨he, hn⟩ | ⟨info, he, hn⟩
    · intro q hq
      simp only [step] at hq ⊢
      rw [hn]; exact hwf q (by rwa [he] at hq)
    · intro q hq
      simp only [step] at hq ⊢
      rw [hn]
      rw [he] at hq
      simp only [dictSet] at hq
      rcases List.mem_cons.mp hq with hq | hq
      · simp [hq]
      · exact Nat.lt_succ_of_lt (hwf q (mem_dictDel hq))
  | opUnschedule s =>
    intro q hq
    simp only [step] at hq ⊢
    rw [(unschedule_preserves s m).2]
    exact hwf q (by rwa [(unschedule_preserves s m).1] at hq)
  | opStop t =>
    intro q hq
    simp only [step] at hq ⊢
    rw [(stop_preserves t m).2]
    exact hwf q (by rwa [(stop_preserves t m).1] at hq)
  | opLoop t cl ds =>
    intro q hq
    simp only [step] at hq ⊢
    rw [(loop_preserves t cl (runDeliveries ds) m
          (fun s => runDeliveries_preserves ds s)).2]
    exact hwf q
      (by rwa [(loop_preserves t cl (runDeliveries ds) m
            (fun s => runDeliveries_preserves ds s)).1] at hq)
  | opDeliver r2 ev o =>
    intro q hq
    simp only [step] at hq ⊢
    cases hg : dictGet r2 m.infos with
    | none => rw [hg] at hq; exact hwf q hq
    | some info =>
      rw [hg] at hq
      rw [(handler_preserves info ev o m).2]
      exact hwf q (by rwa [(handler_preserves info ev o m).1] at hq)

theorem run_infos_lookup (ops : List Op) :
    ∀ (m : MState) (r : Nat) (i : FSEventStreamInfo),
      WFinfos m → dictGet r m.infos = some i →
      dictGet r (run ops m).infos = some i := by
  induction ops with
  | nil => intro m r i _ h; exact h
  | cons op rest ih =>
    intro m r i hwf h
    exact ih (step op m) r i (step_wf op m hwf)
      (step_infos_lookup op m r i hwf h)

/-- Claim C9: (1) `schedule` stores in the new stream's metadata exactly the
thread state current at schedule time; (2) no sequence of module operations
(schedule / unschedule / stop / loop-with-deliveries / delivery) ever
modifies an existing metadata record, so the captured thread state stays
fixed while the stream lives; (3) every delivery invokes the callback under
exactly the stored thread state, whatever thread state (if any) the
delivering native thread had. -/
theorem c9_captured_thread_state_is_fixed :
    (∀ (t s c cl : Nat) (b : Bool) (p : List String) (st : MState),
       dictGet s st.streams = none →
       ∃ info : FSEventStreamInfo,
         dictGet st.nextRef
             (pyfsevents_schedule t s c p true b cl st).2.infos = some info
         ∧ info.thread_state = st.cur)
    ∧ (∀ (ops : List Op) (m : MState) (r : Nat) (i : FSEventStreamInfo),
         WFinfos m → dictGet r m.infos = some i →
         dictGet r (run ops m).infos = some i)
    ∧ (∀ (info : FSEventStreamInfo) (ev : List (String × Nat))
         (o : HandlerOracle) (st : MState) (inv : Invocation),
         (event_stream_handler info ev o st).invoked = some inv →
         inv.ctx = info.thread_state) := by
  refine ⟨?_, ?_, ?_⟩
  · intro t s c cl b p st habs
    refine ⟨{ callback_event_handler := c, stream := st.nextRef,
              loop := (match dictGet t st.loops with | none => cl | some l => l),
              thread_state := st.cur }, ?_, rfl⟩
    by_cases h3 : b = false <;>
      simp [pyfsevents_schedule, habs, h3, dictGet_dictSet_self]
  · intro ops m r i hwf h
    exact run_infos_lookup ops m r i hwf h
  · intro info ev o st inv h
    cases hpm : (o.pathListOk && o.maskListOk)
    · simp [event_stream_handler, hpm] at h
    · cases hm : marshalEvents o 0 ev with
      | error j => simp [event_stream_handler, hpm, hm] at h
      | ok pr =>
        cases pr with
        | mk ps ms =>
          cases hcb : o.cb <;>
            simp [event_stream_handler, hpm, hm, hcb] at h <;>
            rw [← h]

theorem c9_witness :
    dictGet 2 initState.streams = none
    ∧ (∃ info : FSEventStreamInfo,
        dictGet initState.nextRef
            (pyfsevents_schedule 1 2 3 ["/a"] true true 4 initState).2.infos
          = some info
        ∧ info.thread_state = initState.cur)
    ∧ dictGet 0 c9M.infos = some c9Info
    ∧ dictGet 0 (run c9Ops c9M).infos = some c9Info
    ∧ ((event_stream_handler c9Info [("/y", 6)] c9Oracle
          { initState with cur := none, gil := false }).invoked
        = some { ctx := some 1, argPaths := ["/y"], argMasks := [6] })
    ∧ ({ ctx := some 1, argPaths := ["/y"], argMasks := [6] } : Invocation).ctx
        = c9Info.thread_state :=
  ⟨by decide,
   c9_captured_thread_state_is_fixed.1 1 2 3 4 true ["/a"] initState (by decide),
   by decide,
   c9_captured_thread_state_is_fixed.2.1 c9Ops c9M 0 c9Info
     (by intro q hq; simp [c9M, initState] at hq; subst hq; decide) (by decide),
   by decide,
   c9_captured_thread_state_is_fixed.2.2 c9Info [("/y", 6)] c9Oracle
     { initState with cur := none, gil := false }
     { ctx := some 1, argPaths := ["/y"], argMasks := [6] } (by decide)⟩

theorem c10_witness :
    dictGet 9 initState.streams = none
    ∧ ((pyfsevents_schedule 1 9 3 [] true true 4 initState).1 = .pyNone
       ∧ dictGet 9 (pyfsevents_schedule 1 9 3 [] true true 4 initState).2.streams
           = some initState.nextRef
       ∧ (initState.nextRef, ([] : List String))
           ∈ (pyfsevents_schedule 1 9 3 [] true true 4 initState).2.created
       ∧ initState.nextRef
           ∈ (pyfsevents_schedule 1 9 3 [] true true 4 initState).2.started) :=
  ⟨by decide, c10_schedule_accepts_empty_paths 1 9 3 4 initState (by decide)⟩

